import Mathlib

/-!
Shallow embedding of the pymediaserver job/service orchestrator core
(`src/job_manager.py`, `src/job_dispatcher.py`, `src/service_manager.py`,
`src/service_dispatcher.py`) together with proofs about the embedded
operations.

Modelling conventions:
* Database tables are association lists (`List Job`, `List Service`); a
  SQLAlchemy `select ... where id = x` re-fetch is `List.find?` on the id,
  and an ORM row mutation + commit is a `List.map` that rewrites the rows
  whose id matches (the ORM identity map keys rows by primary key).
* `datetime` values are `Int` instants (UTC); `datetime.now()` results are
  passed in as explicit parameters.  UUIDs are `Nat`.
* JSON parameter blobs are flat string dictionaries; a pydantic params
  object is represented directly by its `model_dump(mode="json")` image.
* Worker / service-implementation executions are opaque: the outcome of the
  Python code running between claim and release is passed as a value
  (`Except String ...` for worker bodies, `PyOutcome` for service bodies,
  where `cancelled` stands for `asyncio.CancelledError`, which is a
  `BaseException` and is *not* matched by `except Exception`).
-/

namespace PyMediaServer

/-- The `JobStatus` enum from `src/common/system_types.py`. -/
inductive JobStatus where
  | OPEN
  | RUNNING
  | COMPLETED
  | FAILED
deriving DecidableEq, Repr

/-- The `JobType` enum from `src/common/system_types.py`.  `IMAGE_DOWNLOADER` is
not a member of the Python enum but is referenced by `JobContext.WORKER_MAP`
and `JobDispatcher.PARAMS_MAP`; it is included so those tables can be
embedded as written. -/
inductive JobType where
  | MEDIA_SCAN
  | WATCH_DOG
  | FILE_MATCHER
  | METADATA_MATCHER
  | MOVIE_MATCHER
  | TV_MATCHER
  | FFPROBE
  | TRANSCODER
  | CLEAN_UP
  | IMAGE_DOWNLOADER
deriving DecidableEq, Repr

/-- The `ServiceStatus` enum from `src/common/system_types.py`. -/
inductive ServiceStatus where
  | INACTIVE
  | ACTIVE
  | FAILED
  | SHUTTING_DOWN
deriving DecidableEq, Repr

/-- The `ServiceCommand` enum from `src/common/system_types.py`. -/
inductive ServiceCommand where
  | NONE
  | START
  | STOP
  | RESTART
deriving DecidableEq, Repr

/-- The `ServiceType` enum from `src/common/system_types.py`.  `CLEANUP` is not a
member of the Python enum but is referenced by `ServiceContext.SERVICE_MAP`
and `main.py`; it is included so those tables can be embedded as written. -/
inductive ServiceType where
  | WATCH_DOG
  | METRICS_COLLECTOR
  | EVENT_RELAY
  | CLEANUP
deriving DecidableEq, Repr

/-- JSON image of a pydantic `JobParams` object (`model_dump(mode="json")`
produces a JSON-shaped dict; we represent params directly by that image). -/
abbrev JsonParams := List (String × String)

/-- A row of the `jobs` table (`src/common/models.py`, class `Job`). -/
structure Job where
  id : Nat
  job_type : JobType
  status : JobStatus
  parameters : Option JsonParams
  priority : Int
  created_at : Int
  started_at : Option Int := none
  completed_at : Option Int := none
  error : Option String := none
  parent_job_id : Option Nat := none
  retry_count : Nat := 0
deriving DecidableEq, Repr

/-- The `ChildJobRequest` (= `JobDTO`, `src/common/dto.py`): the fields consumed
by `JobContext.create_child_jobs` (`job_type`, `params`, `priority`). -/
structure ChildJobRequest where
  job_type : JobType
  params : Option JsonParams := none
  priority : Int := 0
deriving DecidableEq, Repr

/-- A row of the `services` table (`src/common/models.py`, class `Service`). -/
structure Service where
  id : Nat
  service_type : ServiceType
  status : ServiceStatus
  command : ServiceCommand
  command_issued_at : Option Int := none
  parameters : Option JsonParams := none
  started_at : Option Int := none
  last_heartbeat_at : Option Int := none
  error : Option String := none
deriving DecidableEq, Repr

/-- The `select(Job).where(Job.id == jid)` — first row with the given id. -/
def findJob (db : List Job) (jid : Nat) : Option Job :=
  db.find? (fun j => j.id = jid)

/-- Commit of a mutation of the ORM row with id `jid`. -/
def updateJob (db : List Job) (jid : Nat) (f : Job → Job) : List Job :=
  db.map (fun j => if j.id = jid then f j else j)

/-- The `select(Service).where(Service.id == sid)` — first row with the given id. -/
def findService (db : List Service) (sid : Nat) : Option Service :=
  db.find? (fun s => s.id = sid)

/-- Commit of a mutation of the ORM row with id `sid`. -/
def updateService (db : List Service) (sid : Nat) (f : Service → Service) :
    List Service :=
  db.map (fun s => if s.id = sid then f s else s)

/-- Membership in `JobContext.WORKER_MAP` (`src/job_manager.py`). -/
def workerRegistered : JobType → Bool
  | .MEDIA_SCAN => true
  | .FILE_MATCHER => true
  | .METADATA_MATCHER => true
  | .FFPROBE => true
  | .MOVIE_MATCHER => true
  | .TV_MATCHER => true
  | .TRANSCODER => true
  | .IMAGE_DOWNLOADER => true
  | _ => false

/-- The `str()` of the `ValueError` raised by `JobContext.__aenter__` when the
row is not `OPEN`: `f"Job {self.job_id} is not in OPEN state"`. -/
def jobNotOpenMsg (jid : Nat) : String :=
  "Job " ++ toString jid ++ " is not in OPEN state"

/-- The `str()` of the `ValueError` raised by `JobContext._create_worker` for an
unregistered job type. -/
def noWorkerMsg (t : JobType) : String :=
  "No worker registered for job type " ++ toString (repr t)

/-- The `JobContext.__aexit__` (src/job_manager.py:111-144), reached with
`self.job` and `self.session` set: re-select the job by id; if it is gone,
log and return; otherwise on an exception set `status=FAILED` and
`error=str(exc_val)` (note: `completed_at` is *not* written on this branch),
and on success set `status=COMPLETED` and `completed_at=now()`. -/
def jobAexit (db : List Job) (jid : Nat) (excMsg : Option String)
    (tNow : Int) : List Job :=
  match findJob db jid with
  | none => db
  | some _ =>
    updateJob db jid (fun j =>
      match excMsg with
      | some m => { j with status := .FAILED, error := some m }
      | none => { j with status := .COMPLETED, completed_at := some tNow })

/-- The row-building loop of `JobContext.create_child_jobs`
(src/job_manager.py:181-202): requests whose `params` is `None` are logged
and skipped (`continue`); each remaining request becomes a new `Job` row
with `status=OPEN`, `parent_job_id=parentId`, the request's `job_type` and
`priority`, and `parameters = request.params.model_dump(mode="json")`.
`freshId k` is the UUID default for the `k`-th inserted row and `tNow` the
`created_at` default. -/
def childRows (parentId : Nat) (freshId : Nat → Nat) (tNow : Int) :
    List ChildJobRequest → Nat → List Job
  | [], _ => []
  | r :: rs, k =>
    match r.params with
    | none => childRows parentId freshId tNow rs k
    | some p =>
      { id := freshId k
        job_type := r.job_type
        status := .OPEN
        parameters := some p
        priority := r.priority
        created_at := tNow
        parent_job_id := some parentId } :: childRows parentId freshId tNow rs (k + 1)

/-- The `JobContext.create_child_jobs` (src/job_manager.py:171-202): in a fresh
session, add one row per request with non-`None` params, then commit. -/
def create_child_jobs (db : List Job) (parentId : Nat)
    (reqs : List ChildJobRequest) (freshId : Nat → Nat) (tNow : Int) :
    List Job :=
  db ++ childRows parentId freshId tNow reqs 0

/-- Outcome of the opaque Python code run between claim and release. -/
inductive WorkOutcome where
  /-- The `Worker.execute` returned this list of child requests. -/
  | ok (reqs : List ChildJobRequest)
  /-- some step raised an `Exception` whose `str()` is `msg`. -/
  | exc (msg : String)
deriving DecidableEq, Repr

/-- The `JobDispatcher._process_job` composed with the `job_manager` context
manager (src/job_dispatcher.py:146-185, src/job_manager.py:205-231):

* `JobContext.__aenter__` re-selects and locks the row.  If it is missing, a
  `ValueError` propagates; `self.job` is still `None`, so the wrapper's
  `__aexit__` call returns immediately and the table is unchanged.
* If the row is found but `status ≠ OPEN`, a `ValueError` propagates — but
  `self.job` was already assigned, so the wrapper's `__aexit__(e)` call
  re-selects the row and marks it `FAILED` with the error message.
* Otherwise `status=RUNNING, started_at=now()` is committed; an unregistered
  `job_type` then raises out of `_create_worker` (→ `__aexit__` error path);
  otherwise the worker body runs with outcome `work`, child rows are
  inserted on success, and `__aexit__` records the terminal state.

`tStart` is the claim instant, `tChild` the child-insert instant and `tEnd`
the release instant.  `_process_job` swallows the re-raised exception after
the context manager has run, so the function is total. -/
def processJob (db : List Job) (jid : Nat) (tStart tChild tEnd : Int)
    (freshId : Nat → Nat) (work : WorkOutcome) : List Job :=
  match findJob db jid with
  | none => db
  | some j =>
    if j.status ≠ .OPEN then
      jobAexit db jid (some (jobNotOpenMsg jid)) tEnd
    else
      let db1 := updateJob db jid (fun x =>
        { x with status := .RUNNING, started_at := some tStart })
      if ¬ workerRegistered j.job_type then
        jobAexit db1 jid (some (noWorkerMsg j.job_type)) tEnd
      else
        match work with
        | .exc msg => jobAexit db1 jid (some msg) tEnd
        | .ok reqs =>
          jobAexit (create_child_jobs db1 jid reqs freshId tChild) jid none tEnd

/-- The `str()` rendering of a `ServiceStatus` member, as interpolated into the
`__aenter__` error message (Python `Enum.__str__`). -/
def serviceStatusStr : ServiceStatus → String
  | .INACTIVE => "ServiceStatus.INACTIVE"
  | .ACTIVE => "ServiceStatus.ACTIVE"
  | .FAILED => "ServiceStatus.FAILED"
  | .SHUTTING_DOWN => "ServiceStatus.SHUTTING_DOWN"

/-- The `str()` of the `ValueError` raised by `ServiceContext.__aenter__` when
the row is not in `{INACTIVE, FAILED}`. -/
def serviceNotStartableMsg (sid : Nat) (st : ServiceStatus) : String :=
  "Service " ++ toString sid ++ " is not in a startable state: " ++
    serviceStatusStr st

/-- Membership in `ServiceContext.SERVICE_MAP` (`src/service_manager.py`). -/
def serviceRegistered : ServiceType → Bool
  | .WATCH_DOG => true
  | .CLEANUP => true
  | _ => false

/-- The `str()` of the `ValueError` raised by `ServiceContext._create_service`
for an unregistered service type. -/
def noServiceMsg (t : ServiceType) : String :=
  "No service registered for service type " ++ toString (repr t)

/-- The column writes committed by `ServiceContext.__aenter__`
(src/service_manager.py:82-86): `status=ACTIVE`, `started_at=now()`,
`last_heartbeat_at=now()`.  No other column is written — in particular
`error` is left as it was. -/
def aenterUpdate (tNow : Int) (x : Service) : Service :=
  { x with status := .ACTIVE, started_at := some tNow,
           last_heartbeat_at := some tNow }

/-- The `ServiceContext.__aenter__` (src/service_manager.py:58-111): the row
must be `INACTIVE` or `FAILED`; on success the `aenterUpdate` columns are
committed.  The `.error` value carries the `str()` of the raised
`ValueError`. -/
def serviceAenter (db : List Service) (sid : Nat) (tNow : Int) :
    Except String (List Service) :=
  match findService db sid with
  | none => .error ("Service " ++ toString sid ++ " not found")
  | some s =>
    if s.status = .INACTIVE ∨ s.status = .FAILED then
      .ok (updateService db sid (aenterUpdate tNow))
    else
      .error (serviceNotStartableMsg sid s.status)

/-- The `ServiceContext.__aexit__` (src/service_manager.py:129-165), reached
with `self.service_model` and `self.session` set: re-select the row by id;
if gone, return; on an exception set `status=FAILED`, `error=str(exc_val)`;
otherwise set `status=INACTIVE`. -/
def serviceAexit (db : List Service) (sid : Nat) (excMsg : Option String) :
    List Service :=
  match findService db sid with
  | none => db
  | some _ =>
    updateService db sid (fun s =>
      match excMsg with
      | some m => { s with status := .FAILED, error := some m }
      | none => { s with status := .INACTIVE })

/-- How the opaque service body (`ServiceContext.execute_service` plus the
heartbeat companion) finishes, as seen at the `yield` of the
`service_manager` context manager. -/
inductive PyOutcome where
  /-- the body returned without raising. -/
  | normal
  /-- the body raised an `Exception` whose `str()` is `msg`. -/
  | exc (msg : String)
  /-- the body raised `asyncio.CancelledError` — a `BaseException`, *not*
  an `Exception`. -/
  | cancelled
deriving DecidableEq, Repr

/-- The `service_manager` context manager around one service execution
(src/service_manager.py:243-271) as driven by
`ServiceDispatcher._run_service` (src/service_dispatcher.py:283-329):

* `__aenter__` failure with the row missing leaves `self.service_model`
  unset, so the wrapper's `__aexit__` call returns with the table unchanged;
* `__aenter__` failure on the status check happens after `self.service_model`
  was assigned, so the wrapper's `__aexit__(e)` marks the row `FAILED`;
* after a successful claim, an unregistered `service_type` raises out of
  `_create_service` and takes the same error path;
* otherwise the body runs: a normal return reaches the generator's `else`
  branch (`__aexit__(None)` → `INACTIVE`); an `Exception` is caught by
  `except Exception` (`__aexit__(e)` → `FAILED`); a `CancelledError` is a
  `BaseException`, matches neither clause, and propagates out of the
  generator — `ServiceContext.__aexit__` never runs and the row keeps the
  `ACTIVE` status committed by `__aenter__`. -/
def service_manager_run (db : List Service) (sid : Nat) (tStart : Int)
    (outcome : PyOutcome) : List Service :=
  match findService db sid with
  | none => db
  | some s =>
    match serviceAenter db sid tStart with
    | .error msg => serviceAexit db sid (some msg)
    | .ok db1 =>
      if ¬ serviceRegistered s.service_type then
        serviceAexit db1 sid (some (noServiceMsg s.service_type))
      else
        match outcome with
        | .normal => serviceAexit db1 sid none
        | .exc msg => serviceAexit db1 sid (some msg)
        | .cancelled => db1

/-- The selection predicate of the start pass
(src/service_dispatcher.py:109-118): `command=START` and
`status ∈ {INACTIVE, FAILED}`. -/
def runnable (s : Service) : Bool :=
  s.command = .START ∧ (s.status = .INACTIVE ∨ s.status = .FAILED)

/-- The rows returned by the start-pass query: the `runnable` rows, limited
to `available_slots = max_concurrent_services - len(active_services)`
(an empty result when no slot is free). -/
def servicesToStart (db : List Service) (active : List Nat)
    (maxConcurrent : Nat) : List Service :=
  let available : Int := (maxConcurrent : Int) - (active.length : Int)
  if available ≤ 0 then [] else (db.filter runnable).take available.toNat

/-- The `ServiceDispatcher._check_services_to_start`
(src/service_dispatcher.py:99-146).  Returns the updated table and the ids
for which a `_run_service` task was spawned.  For each queried row: a row
whose id is already in `active_services` is skipped (`continue` — its
command is *not* cleared); otherwise a task is created and
`command=NONE, command_issued_at=None` is committed for that row. -/
def check_services_to_start (db : List Service) (active : List Nat)
    (maxConcurrent : Nat) : List Service × List Nat :=
  let spawned :=
    ((servicesToStart db active maxConcurrent).filter
      (fun s => s.id ∉ active)).map (fun s => s.id)
  (db.map (fun s =>
      if s.id ∈ spawned then
        { s with command := .NONE, command_issued_at := none }
      else s),
   spawned)

/-- The selection predicate of the stop pass
(src/service_dispatcher.py:152-155): `command=STOP` and `status=ACTIVE`. -/
def stoppable (s : Service) : Bool :=
  s.command = .STOP ∧ s.status = .ACTIVE

/-- The `ServiceDispatcher._check_services_to_stop`
(src/service_dispatcher.py:148-181).  For each queried row: if no in-process
task exists the row is normalized to `INACTIVE, command=NONE`; otherwise the
task is cancelled and the row becomes `SHUTTING_DOWN, command=NONE` (the id
stays in `active_services`; `_run_service`'s `finally` removes it).
Returns the updated table and the ids whose task was cancelled. -/
def check_services_to_stop (db : List Service) (active : List Nat) :
    List Service × List Nat :=
  (db.map (fun s =>
      if stoppable s then
        if s.id ∈ active then
          { s with command := .NONE, command_issued_at := none,
                   status := .SHUTTING_DOWN }
        else
          { s with command := .NONE, command_issued_at := none,
                   status := .INACTIVE }
      else s),
   ((db.filter stoppable).map (fun s => s.id)).filter (fun i => i ∈ active))

/-- One pass of the restart monitor `ServiceDispatcher._monitor_commands`
(src/service_dispatcher.py:183-229).  The query selects every row with
`command=RESTART` — there is no status filter.  For each such row: if its id
is in `active_services` the task is cancelled, awaited, and removed from the
map; then `status=INACTIVE`, `command=START`, `command_issued_at=now()` is
committed.  Returns (updated table, updated active set, cancelled ids). -/
def monitor_commands_pass (db : List Service) (active : List Nat)
    (tNow : Int) : List Service × List Nat × List Nat :=
  let restartIds := (db.filter (fun s => s.command = .RESTART)).map
    (fun s => s.id)
  (db.map (fun s =>
      if s.command = .RESTART then
        { s with status := .INACTIVE, command := .START,
                 command_issued_at := some tNow }
      else s),
   active.filter (fun i => i ∉ restartIds),
   restartIds.filter (fun i => i ∈ active))

/-- The stall predicate of the heartbeat monitor
(src/service_dispatcher.py:240-249): `status=ACTIVE` and
(`last_heartbeat_at < now - 3 * heartbeat_interval` or
`last_heartbeat_at IS NULL`). -/
def stalled (tNow interval : Int) (s : Service) : Bool :=
  decide (s.status = .ACTIVE) &&
    (match s.last_heartbeat_at with
     | none => true
     | some h => decide (h < tNow - 3 * interval))

/-- One pass of `ServiceDispatcher._monitor_heartbeats`
(src/service_dispatcher.py:231-281).  Every stalled row is committed as
`status=FAILED, error="Service heartbeat timeout"`; afterwards, for each
stalled id with an in-process task, the task is cancelled and popped from
`active_services`.  Returns (updated table, updated active set,
cancelled ids). -/
def monitor_heartbeats_pass (db : List Service) (active : List Nat)
    (tNow interval : Int) : List Service × List Nat × List Nat :=
  let stalledIds := (db.filter (stalled tNow interval)).map (fun s => s.id)
  (db.map (fun s =>
      if stalled tNow interval s then
        { s with status := .FAILED, error := some "Service heartbeat timeout" }
      else s),
   active.filter (fun i => i ∉ stalledIds),
   stalledIds.filter (fun i => i ∈ active))

/-- The `ORDER BY priority DESC, created_at ASC` ordering of the job poll
query (src/job_dispatcher.py:119): row `a` may precede row `b` iff `a` has
strictly higher priority, or equal priority and `created_at` no later. -/
def jobLE (a b : Job) : Prop :=
  b.priority < a.priority ∨ (a.priority = b.priority ∧ a.created_at ≤ b.created_at)

instance : DecidableRel jobLE := fun a b => by
  unfold jobLE; infer_instance

instance : IsTotal Job jobLE where
  total a b := by
    rcases lt_trichotomy a.priority b.priority with h | h | h
    · exact Or.inr (Or.inl h)
    · rcases le_total a.created_at b.created_at with h' | h'
      · exact Or.inl (Or.inr ⟨h, h'⟩)
      · exact Or.inr (Or.inr ⟨h.symm, h'⟩)
    · exact Or.inl (Or.inl h)

instance : IsTrans Job jobLE where
  trans a b c hab hbc := by
    rcases hab with h1 | ⟨h1, h1'⟩ <;> rcases hbc with h2 | ⟨h2, h2'⟩
    · exact Or.inl (h2.trans h1)
    · exact Or.inl (h2 ▸ h1)
    · exact Or.inl (h1 ▸ h2)
    · exact Or.inr ⟨h1.trans h2, h1'.trans h2'⟩

/-- The candidate predicate of the poll query
(src/job_dispatcher.py:113-121): `status=OPEN` and `id ∉ active_jobs`. -/
def openCandidate (active : List Nat) (j : Job) : Bool :=
  j.status = .OPEN ∧ j.id ∉ active

/-- The `JobDispatcher._get_open_jobs` (src/job_dispatcher.py:99-144):
`available_slots = max_concurrent_jobs - len(active_jobs)`; if no slot is
free, return `[]`; otherwise query the `OPEN` jobs not in `active_jobs`,
ordered by `(priority DESC, created_at ASC)`, limited to the free slots,
then re-validate each row (drop it if its id is in `active_jobs` or its
status is no longer `OPEN`; in this pure model the second filter drops
nothing).  `start` dispatches `_process_job` over the returned list in list
order. -/
def get_open_jobs (db : List Job) (active : List Nat)
    (maxConcurrent : Nat) : List Job :=
  let available : Int := (maxConcurrent : Int) - (active.length : Int)
  if available ≤ 0 then []
  else
    ((List.insertionSort jobLE (db.filter (openCandidate active))).take
        available.toNat).filter (openCandidate active)

/-! ### Table lemmas -/

theorem findJob_map (f : Job → Job) (hf : ∀ j, (f j).id = j.id)
    (db : List Job) (jid : Nat) :
    findJob (db.map f) jid = (findJob db jid).map f := by
  unfold findJob
  rw [List.find?_map]
  have hp : ((fun j : Job => decide (j.id = jid)) ∘ f) =
      (fun j : Job => decide (j.id = jid)) := by
    funext j
    simp [Function.comp, hf]
  rw [hp]

theorem findJob_update (db : List Job) (jid : Nat) (g : Job → Job)
    (hg : ∀ j, (g j).id = j.id) :
    findJob (updateJob db jid g) jid = (findJob db jid).map g := by
  unfold updateJob
  rw [findJob_map _ (fun j => by by_cases h : j.id = jid <;> simp [h, hg])]
  cases h : findJob db jid with
  | none => rfl
  | some j =>
    have hj : j.id = jid := by
      have := List.find?_some h
      simpa using this
    simp [hj]

theorem findJob_append_left {db : List Job} {jid : Nat} {j : Job}
    (h : findJob db jid = some j) (l : List Job) :
    findJob (db ++ l) jid = some j := by
  unfold findJob at h ⊢
  rw [List.find?_append, h]
  rfl

theorem findService_map (f : Service → Service) (hf : ∀ s, (f s).id = s.id)
    (db : List Service) (sid : Nat) :
    findService (db.map f) sid = (findService db sid).map f := by
  unfold findService
  rw [List.find?_map]
  have hp : ((fun s : Service => decide (s.id = sid)) ∘ f) =
      (fun s : Service => decide (s.id = sid)) := by
    funext s
    simp [Function.comp, hf]
  rw [hp]

theorem findService_update (db : List Service) (sid : Nat)
    (g : Service → Service) (hg : ∀ s, (g s).id = s.id) :
    findService (updateService db sid g) sid = (findService db sid).map g := by
  unfold updateService
  rw [findService_map _ (fun s => by by_cases h : s.id = sid <;> simp [h, hg])]
  cases h : findService db sid with
  | none => rfl
  | some s =>
    have hs : s.id = sid := by
      have := List.find?_some h
      simpa using this
    simp [hs]

theorem findService_of_mem_nodup {db : List Service} {s : Service}
    (hmem : s ∈ db) (hnd : (db.map Service.id).Nodup) :
    findService db s.id = some s := by
  induction db with
  | nil => cases hmem
  | cons a l ih =>
    rcases List.mem_cons.mp hmem with rfl | hmem'
    · simp [findService]
    · have ha : a.id ≠ s.id := by
        intro h
        have : s.id ∈ l.map Service.id := List.mem_map_of_mem _ hmem'
        rw [← h] at this
        exact (List.nodup_cons.mp (by simpa using hnd)).1 this
      have := ih hmem' (List.nodup_cons.mp (by simpa using hnd)).2
      simpa [findService, List.find?_cons, ha] using this

theorem eq_of_mem_mem_nodup {db : List Service} {s s' : Service}
    (hs : s ∈ db) (hs' : s' ∈ db) (hid : s.id = s'.id)
    (hnd : (db.map Service.id).Nodup) : s = s' := by
  have h1 := findService_of_mem_nodup hs hnd
  have h2 := findService_of_mem_nodup hs' hnd
  rw [hid, h2] at h1
  exact (Option.some.inj h1).symm

/-! ### Child-row lemmas -/

theorem childRows_length (pid : Nat) (fid : Nat → Nat) (t : Int) :
    ∀ (reqs : List ChildJobRequest) (k : Nat),
      (childRows pid fid t reqs k).length =
        (reqs.filter (fun r => r.params.isSome)).length
  | [], _ => rfl
  | r :: rs, k => by
    cases hp : r.params with
    | none => simp [childRows, hp, childRows_length pid fid t rs k]
    | some p => simp [childRows, hp, childRows_length pid fid t rs (k + 1)]

theorem childRows_mem (pid : Nat) (fid : Nat → Nat) (t : Int) :
    ∀ (reqs : List ChildJobRequest) (k : Nat) (j : Job),
      j ∈ childRows pid fid t reqs k →
        j.status = .OPEN ∧ j.parent_job_id = some pid ∧ j.created_at = t ∧
          ∃ r ∈ reqs, ∃ p, r.params = some p ∧ j.job_type = r.job_type ∧
            j.priority = r.priority ∧ j.parameters = some p
  | [], _, j => by intro h; cases h
  | r :: rs, k, j => by
    intro h
    cases hp : r.params with
    | none =>
      rw [childRows, hp] at h
      obtain ⟨h1, h2, h3, r', hr', rest⟩ := childRows_mem pid fid t rs k j h
      exact ⟨h1, h2, h3, r', List.mem_cons_of_mem _ hr', rest⟩
    | some p =>
      rw [childRows, hp] at h
      rcases List.mem_cons.mp h with rfl | h'
      · exact ⟨rfl, rfl, rfl, r, List.mem_cons_self _ _, p, hp, rfl, rfl, rfl⟩
      · obtain ⟨h1, h2, h3, r', hr', rest⟩ :=
          childRows_mem pid fid t rs (k + 1) j h'
        exact ⟨h1, h2, h3, r', List.mem_cons_of_mem _ hr', rest⟩

theorem childRows_complete (pid : Nat) (fid : Nat → Nat) (t : Int) :
    ∀ (reqs : List ChildJobRequest) (k : Nat) (r : ChildJobRequest)
      (p : JsonParams), r ∈ reqs → r.params = some p →
      ∃ j ∈ childRows pid fid t reqs k,
        j.job_type = r.job_type ∧ j.priority = r.priority ∧
          j.parameters = some p ∧ j.status = .OPEN ∧
          j.parent_job_id = some pid
  | [], _, r, p => by intro h; cases h
  | r0 :: rs, k, r, p => by
    intro hmem hp
    rcases List.mem_cons.mp hmem with rfl | hmem'
    · rw [childRows, hp]
      exact ⟨_, List.mem_cons_self _ _, rfl, rfl, rfl, rfl, rfl⟩
    · cases hp0 : r0.params with
      | none =>
        obtain ⟨j, hj, rest⟩ := childRows_complete pid fid t rs k r p hmem' hp
        exact ⟨j, by rw [childRows, hp0]; exact hj, rest⟩
      | some p0 =>
        obtain ⟨j, hj, rest⟩ :=
          childRows_complete pid fid t rs (k + 1) r p hmem' hp
        exact ⟨j, by rw [childRows, hp0]; exact List.mem_cons_of_mem _ hj, rest⟩

theorem childRows_skip (pid : Nat) (fid : Nat → Nat) (t : Int)
    (r : ChildJobRequest) (hr : r.params = none) :
    ∀ (l1 l2 : List ChildJobRequest) (k : Nat),
      childRows pid fid t (l1 ++ r :: l2) k = childRows pid fid t (l1 ++ l2) k
  | [], l2, k => by simp [childRows, hr]
  | r0 :: l1, l2, k => by
    cases hp0 : r0.params with
    | none => simp [childRows, hp0, childRows_skip pid fid t r hr l1 l2 k]
    | some p0 => simp [childRows, hp0, childRows_skip pid fid t r hr l1 l2 (k + 1)]

/-! ### Sample rows for concrete witnesses -/

/-- A freshly created `OPEN` job row. -/
def sampleOpenJob : Job :=
  { id := 1, job_type := .MEDIA_SCAN, status := .OPEN,
    parameters := some [("directory", "/media")], priority := 0,
    created_at := 0 }

/-- A job row already claimed (`RUNNING`) by another scheduler at `t = 5`. -/
def claimedJob : Job :=
  { id := 1, job_type := .MEDIA_SCAN, status := .RUNNING,
    parameters := some [("directory", "/media")], priority := 0,
    created_at := 0, started_at := some 5 }

/-! ### C1 — job failure outcome -/

/-- Helper: the terminal state of a claimed-then-released job, for both
work outcomes. -/
theorem processJob_terminal (db : List Job) (jid : Nat) (tS tC tE : Int)
    (fid : Nat → Nat) (work : WorkOutcome) (j : Job)
    (hfind : findJob db jid = some j) (hopen : j.status = .OPEN)
    (hreg : workerRegistered j.job_type = true) :
    findJob (processJob db jid tS tC tE fid work) jid =
      some (match work with
        | .exc msg =>
          { j with status := .FAILED, started_at := some tS,
                   error := some msg }
        | .ok _ =>
          { j with status := .COMPLETED, started_at := some tS,
                   completed_at := some tE }) := by
  have hid : ∀ x : Job,
      (({ x with status := JobStatus.RUNNING, started_at := some tS } : Job)).id = x.id :=
    fun _ => rfl
  have h1 : findJob
      (updateJob db jid
        (fun x => { x with status := .RUNNING, started_at := some tS })) jid =
      some { j with status := .RUNNING, started_at := some tS } := by
    rw [findJob_update _ _ _ hid, hfind]
    rfl
  unfold processJob
  rw [hfind]
  simp only [hopen, ne_eq, not_true_eq_false, if_false, hreg, not_false_eq_true,
    Bool.not_true, reduceIte, ite_false, ite_true]
  cases work with
  | exc msg =>
    simp only [jobAexit, h1]
    rw [findJob_update _ _ _ (fun x => by cases x; rfl), h1]
    rfl
  | ok reqs =>
    have h2 : findJob
        (create_child_jobs
          (updateJob db jid
            (fun x => { x with status := .RUNNING, started_at := some tS }))
          jid reqs fid tC) jid =
        some { j with status := .RUNNING, started_at := some tS } :=
      findJob_append_left h1 _
    simp only [jobAexit, h2]
    rw [findJob_update _ _ _ (fun x => by cases x; rfl), h2]
    rfl

/-- Claim C1 (amended): when the worker body of a claimed `OPEN` job raises,
`JobContext.__aexit__` re-selects the row and sets `status=FAILED` and
`error=str(e)`, but — unlike the success branch — it does *not* write
`completed_at`, which keeps its prior value (null for a fresh job).  Hence
after close, `completed_at` is non-null only on the `COMPLETED` path. -/
theorem c1_close_error_no_completed_at (db : List Job) (jid : Nat)
    (tS tC tE : Int) (fid : Nat → Nat) (msg : String) (j : Job)
    (hfind : findJob db jid = some j) (hopen : j.status = .OPEN)
    (hreg : workerRegistered j.job_type = true) :
    findJob (processJob db jid tS tC tE fid (.exc msg)) jid =
      some { j with status := .FAILED, started_at := some tS,
                    error := some msg } ∧
    ({ j with status := .FAILED, started_at := some tS,
              error := some msg } : Job).completed_at = j.completed_at :=
  ⟨processJob_terminal db jid tS tC tE fid (.exc msg) j hfind hopen hreg, rfl⟩

/-- Claim C1 witness: the amended theorem applied to a concrete one-row table. -/
theorem c1_witness :
    findJob [sampleOpenJob] 1 = some sampleOpenJob ∧
    sampleOpenJob.status = .OPEN ∧
    workerRegistered sampleOpenJob.job_type = true ∧
    (findJob (processJob [sampleOpenJob] 1 10 15 20 (fun k => 100 + k)
        (.exc "boom")) 1 =
      some { sampleOpenJob with status := .FAILED, started_at := some 10,
                                error := some "boom" } ∧
     ({ sampleOpenJob with status := .FAILED, started_at := some 10,
                           error := some "boom" } : Job).completed_at =
       sampleOpenJob.completed_at) :=
  ⟨by decide, by decide, by decide,
   c1_close_error_no_completed_at [sampleOpenJob] 1 10 15 20
     (fun k => 100 + k) "boom" sampleOpenJob (by decide) (by decide) (by decide)⟩

/-- Claim C1 counterexample: run the embedded per-job pipeline on a fresh
`OPEN` job whose worker raises `"boom"` (`tStart=10`, `tEnd=20`).  The row
ends `FAILED` with `error="boom"` but `completed_at` is still `none`,
refuting `completed_at=now()` on the error path and the invariant
"`completed_at` non-null whenever `status ∈ {COMPLETED, FAILED}`". -/
theorem c1_counterexample :
    (findJob (processJob [sampleOpenJob] 1 10 15 20 (fun k => 100 + k)
        (.exc "boom")) 1).map (fun j => (j.status, j.completed_at, j.error)) =
      some (.FAILED, none, some "boom") ∧
    (findJob (processJob [sampleOpenJob] 1 10 15 20 (fun k => 100 + k)
        (.exc "boom")) 1).map (fun j => (j.status, j.completed_at, j.error)) ≠
      some (.FAILED, some 20, some "boom") := by
  constructor <;> decide

/-! ### C2 — racing claim on a non-OPEN job -/

/-- Claim C2 (code divergence, evaluated at the failing input): a second
scheduler processes a job row that is already `RUNNING` (claimed by the
winner at `t = 5`).  `JobContext.__aenter__` raises the expected
`ValueError`, but `self.job` was assigned before the status check, so the
`job_manager` wrapper's `__aexit__(e)` call re-selects the row and commits
`status=FAILED, error="Job 1 is not in OPEN state"` — the loser overwrites
the winner's `RUNNING` row instead of leaving it unchanged (only
`started_at` survives). -/
theorem c2_losing_claim_overwrites_row :
    findJob (processJob [claimedJob] 1 10 15 20 (fun k => 100 + k)
        (.ok [])) 1 =
      some { claimedJob with
              status := .FAILED,
              error := some "Job 1 is not in OPEN state" } ∧
    ({ claimedJob with
        status := .FAILED,
        error := some "Job 1 is not in OPEN state" } : Job).status ≠
      .RUNNING ∧
    ({ claimedJob with
        status := .FAILED,
        error := some "Job 1 is not in OPEN state" } : Job).started_at =
      some 5 := by
  refine ⟨?_, by decide, by decide⟩
  rfl

/-! ### C7 / C10 — child-job creation -/

/-- A child request with parameters, for concrete witnesses. -/
def reqWithParams : ChildJobRequest :=
  { job_type := .FFPROBE, params := some [("path", "/a.mkv")], priority := 2 }

/-- A child request whose `params` is `None`, for concrete witnesses. -/
def reqNoParams : ChildJobRequest :=
  { job_type := .FFPROBE, params := none, priority := 1 }

/-- Claim C7 (amended): `create_child_jobs` appends, in one fresh transaction,
exactly one new row per request whose `params` is non-`None` (requests with
`params=None` are skipped), each with `status=OPEN`,
`parent_job_id=parentId`, the request's `job_type` and `priority`, and the
JSON serialization of its params; conversely every non-`None` request gets
such a row. -/
theorem c7_create_children (db : List Job) (pid : Nat)
    (reqs : List ChildJobRequest) (fid : Nat → Nat) (t : Int) :
    create_child_jobs db pid reqs fid t = db ++ childRows pid fid t reqs 0 ∧
    (create_child_jobs db pid reqs fid t).length =
      db.length + (reqs.filter (fun r => r.params.isSome)).length ∧
    (∀ j ∈ childRows pid fid t reqs 0,
        j.status = .OPEN ∧ j.parent_job_id = some pid ∧ j.created_at = t ∧
          ∃ r ∈ reqs, ∃ p, r.params = some p ∧ j.job_type = r.job_type ∧
            j.priority = r.priority ∧ j.parameters = some p) ∧
    (∀ r ∈ reqs, ∀ p : JsonParams, r.params = some p →
        ∃ j ∈ childRows pid fid t reqs 0,
          j.job_type = r.job_type ∧ j.priority = r.priority ∧
            j.parameters = some p ∧ j.status = .OPEN ∧
            j.parent_job_id = some pid) := by
  refine ⟨rfl, ?_, ?_, ?_⟩
  · simp [create_child_jobs, childRows_length]
  · exact fun j hj => childRows_mem pid fid t reqs 0 j hj
  · exact fun r hr p hp => childRows_complete pid fid t reqs 0 r p hr hp

/-- Claim C7 witness: the amended theorem at a concrete two-request list (one
request with params, one with `params=None`). -/
theorem c7_witness :
    create_child_jobs [sampleOpenJob] 9 [reqWithParams, reqNoParams]
        (fun k => 50 + k) 3 =
      [sampleOpenJob] ++ childRows 9 (fun k => 50 + k) 3
        [reqWithParams, reqNoParams] 0 ∧
    (create_child_jobs [sampleOpenJob] 9 [reqWithParams, reqNoParams]
        (fun k => 50 + k) 3).length =
      [sampleOpenJob].length +
        (([reqWithParams, reqNoParams].filter
          (fun r => r.params.isSome))).length ∧
    (∀ j ∈ childRows 9 (fun k => 50 + k) 3 [reqWithParams, reqNoParams] 0,
        j.status = .OPEN ∧ j.parent_job_id = some 9 ∧ j.created_at = 3 ∧
          ∃ r ∈ [reqWithParams, reqNoParams], ∃ p, r.params = some p ∧
            j.job_type = r.job_type ∧ j.priority = r.priority ∧
            j.parameters = some p) ∧
    (∀ r ∈ [reqWithParams, reqNoParams], ∀ p : JsonParams,
        r.params = some p →
        ∃ j ∈ childRows 9 (fun k => 50 + k) 3 [reqWithParams, reqNoParams] 0,
          j.job_type = r.job_type ∧ j.priority = r.priority ∧
            j.parameters = some p ∧ j.status = .OPEN ∧
            j.parent_job_id = some 9) :=
  c7_create_children [sampleOpenJob] 9 [reqWithParams, reqNoParams]
    (fun k => 50 + k) 3

/-- Claim C7 counterexample: a worker returning exactly one child spec whose
`params` is `None` yields zero inserted rows, not one row per spec as the
claim states. -/
theorem c7_counterexample :
    create_child_jobs [] 7 [reqNoParams] (fun k => 10 + k) 0 = [] ∧
    (create_child_jobs [] 7 [reqNoParams] (fun k => 10 + k) 0).length ≠
      [reqNoParams].length := by
  constructor <;> decide

/-- Claim C10: a child request with `params=None` is skipped silently — the
resulting table is exactly the one obtained from the same list without that
request (so no row is inserted for it and no error is raised), while every
request with non-`None` params still gets its row. -/
theorem c10_none_params_skipped (db : List Job) (pid : Nat)
    (l1 l2 : List ChildJobRequest) (r : ChildJobRequest) (fid : Nat → Nat)
    (t : Int) (hr : r.params = none) :
    create_child_jobs db pid (l1 ++ r :: l2) fid t =
      create_child_jobs db pid (l1 ++ l2) fid t ∧
    (∀ r' ∈ l1 ++ l2, ∀ p : JsonParams, r'.params = some p →
        ∃ j ∈ childRows pid fid t (l1 ++ r :: l2) 0,
          j.job_type = r'.job_type ∧ j.priority = r'.priority ∧
            j.parameters = some p ∧ j.status = .OPEN ∧
            j.parent_job_id = some pid) := by
  constructor
  · unfold create_child_jobs
    rw [childRows_skip pid fid t r hr]
  · intro r' hr' p hp
    have hmem : r' ∈ l1 ++ r :: l2 := by
      rcases List.mem_append.mp hr' with h | h
      · exact List.mem_append.mpr (Or.inl h)
      · exact List.mem_append.mpr (Or.inr (List.mem_cons_of_mem _ h))
    exact childRows_complete pid fid t _ 0 r' p hmem hp

/-- Claim C10 witness: the theorem at a concrete list `[reqWithParams,
reqNoParams]` (`l1 = [reqWithParams]`, `l2 = []`). -/
theorem c10_witness :
    reqNoParams.params = none ∧
    (create_child_jobs [] 9 ([reqWithParams] ++ reqNoParams :: [])
        (fun k => 50 + k) 3 =
      create_child_jobs [] 9 ([reqWithParams] ++ []) (fun k => 50 + k) 3 ∧
    (∀ r' ∈ [reqWithParams] ++ ([] : List ChildJobRequest),
        ∀ p : JsonParams, r'.params = some p →
        ∃ j ∈ childRows 9 (fun k => 50 + k) 3
            ([reqWithParams] ++ reqNoParams :: []) 0,
          j.job_type = r'.job_type ∧ j.priority = r'.priority ∧
            j.parameters = some p ∧ j.status = .OPEN ∧
            j.parent_job_id = some 9)) :=
  ⟨by decide,
   c10_none_params_skipped [] 9 [reqWithParams] [] reqNoParams
     (fun k => 50 + k) 3 (by decide)⟩

/-! ### C3 — cancellation of a running service -/

/-- An idle (startable) watchdog row, for concrete witnesses. -/
def idleService : Service :=
  { id := 1, service_type := .WATCH_DOG, status := .INACTIVE,
    command := .NONE }

/-- Claim C3 (code divergence, evaluated at the failing input): run the
embedded `service_manager` envelope on a startable row.  If the body is
cancelled (`STOP`, `RESTART`, or engine shutdown), the `CancelledError` is a
`BaseException` and is not matched by the wrapper's `except Exception`, so
`ServiceContext.__aexit__` never runs: the row keeps the `ACTIVE` status
committed by `__aenter__` instead of being recorded `INACTIVE`.  For
contrast, a plain return records `INACTIVE` and an `Exception` records
`FAILED` — so there is no path on which cancellation yields `INACTIVE`. -/
theorem c3_cancellation_skips_close :
    (findService (service_manager_run [idleService] 1 10 .cancelled) 1).map
        Service.status = some .ACTIVE ∧
    (findService (service_manager_run [idleService] 1 10 .cancelled) 1).map
        Service.status ≠ some .INACTIVE ∧
    (findService (service_manager_run [idleService] 1 10 .normal) 1).map
        Service.status = some .INACTIVE ∧
    (findService (service_manager_run [idleService] 1 10 (.exc "boom")) 1).map
        Service.status = some .FAILED := by
  refine ⟨?_, ?_, ?_, ?_⟩ <;> decide

/-! ### C8 — restart of a FAILED service keeps its stale error -/

/-- A `FAILED` service row carrying an error string and a pending `START`
command, for concrete witnesses. -/
def failedService : Service :=
  { id := 2, service_type := .WATCH_DOG, status := .FAILED,
    command := .START, error := some "old boom" }

/-- Claim C8 (amended): when a service with `status=FAILED` is started and
`ServiceContext.__aenter__` succeeds, the row transitions to `ACTIVE` with
fresh `started_at`/`last_heartbeat_at` — but the `error` column is *not*
cleared: it keeps its previous value (neither `__aenter__` nor the start
pass writes `error`). -/
theorem c8_start_keeps_error (db : List Service) (sid : Nat) (tNow : Int)
    (s : Service) (hfind : findService db sid = some s)
    (hst : s.status = .FAILED) (_hcmd : s.command = .START) :
    serviceAenter db sid tNow = .ok (updateService db sid (aenterUpdate tNow)) ∧
    findService (updateService db sid (aenterUpdate tNow)) sid =
      some (aenterUpdate tNow s) ∧
    (aenterUpdate tNow s).status = .ACTIVE ∧
    (aenterUpdate tNow s).error = s.error := by
  refine ⟨?_, ?_, rfl, rfl⟩
  · unfold serviceAenter
    rw [hfind]
    simp [hst]
  · rw [findService_update db sid (aenterUpdate tNow) (fun x => rfl), hfind]
    rfl

/-- Claim C8 witness: the amended theorem at a concrete `FAILED` row whose
`error` is `"old boom"`; the started row is `ACTIVE` and still carries
`error="old boom"` (in particular the error is not reset to null). -/
theorem c8_witness :
    findService [failedService] 2 = some failedService ∧
    failedService.status = .FAILED ∧
    failedService.command = .START ∧
    (serviceAenter [failedService] 2 50 =
        .ok (updateService [failedService] 2 (aenterUpdate 50)) ∧
      findService (updateService [failedService] 2 (aenterUpdate 50)) 2 =
        some (aenterUpdate 50 failedService) ∧
      (aenterUpdate 50 failedService).status = .ACTIVE ∧
      (aenterUpdate 50 failedService).error = failedService.error) :=
  ⟨rfl, rfl, rfl,
   c8_start_keeps_error [failedService] 2 50 failedService rfl rfl rfl⟩

/-- Claim C8 counterexample: starting the concrete `FAILED` row succeeds and
produces an `ACTIVE` row whose `error` is still `some "old boom"`, not
`none` — the start does not clear the error field as the claim states. -/
theorem c8_counterexample :
    serviceAenter [failedService] 2 50 =
      .ok [{ failedService with
              status := .ACTIVE, started_at := some 50,
              last_heartbeat_at := some 50 }] ∧
    ({ failedService with
        status := .ACTIVE, started_at := some 50,
        last_heartbeat_at := some 50 } : Service).error = some "old boom" ∧
    (some "old boom" : Option String) ≠ none := by
  refine ⟨rfl, rfl, by decide⟩

/-! ### C4 — heartbeat monitor -/

/-- An `ACTIVE` service whose heartbeat is long stale, for witnesses. -/
def staleService : Service :=
  { id := 4, service_type := .WATCH_DOG, status := .ACTIVE,
    command := .NONE, last_heartbeat_at := some 10 }

/-- Claim C4 (amended): one pass of the heartbeat monitor selects exactly the
services with `status=ACTIVE` whose `last_heartbeat_at` is null or strictly
older than `now − 3 × heartbeatInterval`; each selected row is committed
`FAILED` with error string `"Service heartbeat timeout"` (not the claim's
bare `"heartbeat timeout"`), its task is cancelled when present, and its id
leaves the active set; unselected rows and their active entries are
untouched. -/
theorem c4_heartbeat_monitor (db : List Service) (active : List Nat)
    (tNow interval : Int) (s : Service) (hmem : s ∈ db)
    (hnd : (db.map Service.id).Nodup) :
    (stalled tNow interval s = true ↔
      s.status = .ACTIVE ∧
        (s.last_heartbeat_at = none ∨
          ∃ h, s.last_heartbeat_at = some h ∧ h < tNow - 3 * interval)) ∧
    (stalled tNow interval s = true →
      findService (monitor_heartbeats_pass db active tNow interval).1 s.id =
        some { s with status := .FAILED,
                      error := some "Service heartbeat timeout" } ∧
      s.id ∉ (monitor_heartbeats_pass db active tNow interval).2.1 ∧
      (s.id ∈ active →
        s.id ∈ (monitor_heartbeats_pass db active tNow interval).2.2)) ∧
    (stalled tNow interval s = false →
      findService (monitor_heartbeats_pass db active tNow interval).1 s.id =
        some s ∧
      (s.id ∈ active →
        s.id ∈ (monitor_heartbeats_pass db active tNow interval).2.1) ∧
      s.id ∉ (monitor_heartbeats_pass db active tNow interval).2.2) := by
  have hids : ∀ p : Service → Bool,
      (s.id ∈ (db.filter p).map Service.id ↔ p s = true) := by
    intro p
    constructor
    · intro h
      obtain ⟨s', hs', hid⟩ := List.mem_map.mp h
      obtain ⟨hs'db, hp⟩ := List.mem_filter.mp hs'
      have : s' = s := eq_of_mem_mem_nodup hs'db hmem hid hnd
      rwa [this] at hp
    · intro hp
      exact List.mem_map_of_mem _ (List.mem_filter.mpr ⟨hmem, hp⟩)
  have hfid : ∀ x : Service,
      ((if stalled tNow interval x then
          { x with status := ServiceStatus.FAILED,
                   error := some "Service heartbeat timeout" }
        else x) : Service).id = x.id := by
    intro x
    by_cases hx : stalled tNow interval x <;> simp [hx]
  have hfind :
      findService (monitor_heartbeats_pass db active tNow interval).1 s.id =
        some (if stalled tNow interval s then
          { s with status := ServiceStatus.FAILED,
                   error := some "Service heartbeat timeout" }
        else s) := by
    show findService (db.map _) s.id = _
    rw [findService_map _ hfid, findService_of_mem_nodup hmem hnd]
    rfl
  refine ⟨?_, ?_, ?_⟩
  · unfold stalled
    cases hlh : s.last_heartbeat_at with
    | none => simp [hlh]
    | some h => simp [hlh]
  · intro hst
    refine ⟨by rw [hfind]; simp [hst], ?_, ?_⟩
    · intro hcontra
      have := (List.mem_filter.mp hcontra).2
      simp only [decide_eq_true_eq] at this
      exact this ((hids _).mpr hst)
    · intro hact
      exact List.mem_filter.mpr ⟨(hids _).mpr hst, by simpa using hact⟩
  · intro hst
    refine ⟨by rw [hfind]; simp [hst], ?_, ?_⟩
    · intro hact
      refine List.mem_filter.mpr ⟨hact, ?_⟩
      simp only [decide_eq_true_eq]
      intro hmem'
      rw [(hids _)] at hmem'
      rw [hst] at hmem'
      cases hmem'
    · intro hcontra
      have := (List.mem_filter.mp hcontra).1
      rw [(hids _)] at this
      rw [hst] at this
      cases this

/-- Claim C4 witness: the amended theorem at a one-row table holding an
`ACTIVE` service with `last_heartbeat_at=10`, monitored at `now=100` with
`heartbeatInterval=10` (threshold `70`), its task in the active map. -/
theorem c4_witness :
    staleService ∈ [staleService] ∧
    (([staleService].map Service.id).Nodup) ∧
    ((stalled 100 10 staleService = true ↔
      staleService.status = .ACTIVE ∧
        (staleService.last_heartbeat_at = none ∨
          ∃ h, staleService.last_heartbeat_at = some h ∧ h < 100 - 3 * 10)) ∧
    (stalled 100 10 staleService = true →
      findService (monitor_heartbeats_pass [staleService] [4] 100 10).1
          staleService.id =
        some { staleService with
                status := .FAILED,
                error := some "Service heartbeat timeout" } ∧
      staleService.id ∉ (monitor_heartbeats_pass [staleService] [4] 100 10).2.1 ∧
      (staleService.id ∈ [4] →
        staleService.id ∈
          (monitor_heartbeats_pass [staleService] [4] 100 10).2.2)) ∧
    (stalled 100 10 staleService = false →
      findService (monitor_heartbeats_pass [staleService] [4] 100 10).1
          staleService.id = some staleService ∧
      (staleService.id ∈ [4] →
        staleService.id ∈
          (monitor_heartbeats_pass [staleService] [4] 100 10).2.1) ∧
      staleService.id ∉ (monitor_heartbeats_pass [staleService] [4] 100 10).2.2)) :=
  ⟨by decide, by decide,
   c4_heartbeat_monitor [staleService] [4] 100 10 staleService
     (by decide) (by decide)⟩

/-- Claim C4 counterexample: at the same concrete input the committed error
string is `"Service heartbeat timeout"`, which differs from the claim's
`"heartbeat timeout"`. -/
theorem c4_counterexample :
    ((monitor_heartbeats_pass [staleService] [4] 100 10).1.map
      (fun s => (s.status, s.error))) =
      [(.FAILED, some "Service heartbeat timeout")] ∧
    (some "Service heartbeat timeout" : Option String) ≠
      some "heartbeat timeout" := by
  constructor <;> decide

/-! ### C6 — start pass -/

/-- Every row returned by the start-pass query is a `runnable` row of the
table. -/
theorem mem_servicesToStart {db : List Service} {active : List Nat}
    {m : Nat} {s : Service} (h : s ∈ servicesToStart db active m) :
    s ∈ db ∧ runnable s = true := by
  unfold servicesToStart at h
  by_cases hav : ((m : Int) - (active.length : Int)) ≤ 0
  · simp only [hav, if_pos] at h
    cases h
  · simp only [hav, if_neg, if_false, reduceIte] at h
    have := List.mem_of_mem_take h
    exact ⟨(List.mem_filter.mp this).1, (List.mem_filter.mp this).2⟩

/-- Claim C6: when free slots exist the start pass selects the rows with
`command=START` and `status ∈ {INACTIVE, FAILED}` limited to the free slot
count, and for every selected row that is not already in the active map it
spawns the run task (the id is returned as spawned) and commits
`command=NONE, command_issued_at=null` on that row; with no free slot
nothing happens. -/
theorem c6_start_pass (db : List Service) (active : List Nat) (m : Nat)
    (hnd : (db.map Service.id).Nodup) :
    (m ≤ active.length → check_services_to_start db active m = (db, [])) ∧
    (active.length < m →
      servicesToStart db active m =
        (db.filter runnable).take (m - active.length)) ∧
    (check_services_to_start db active m).2.length ≤ m - active.length ∧
    (∀ i ∈ (check_services_to_start db active m).2,
      ∃ s ∈ db, s.id = i ∧ runnable s = true ∧ i ∉ active) ∧
    (∀ s ∈ servicesToStart db active m, s.id ∉ active →
      s.id ∈ (check_services_to_start db active m).2 ∧
      findService (check_services_to_start db active m).1 s.id =
        some { s with command := .NONE, command_issued_at := none }) := by
  have hlen : (servicesToStart db active m).length ≤ m - active.length := by
    unfold servicesToStart
    by_cases hav : ((m : Int) - (active.length : Int)) ≤ 0
    · simp [hav]
    · simp only [hav, if_neg, if_false, reduceIte]
      calc ((db.filter runnable).take
              ((m : Int) - (active.length : Int)).toNat).length
          ≤ ((m : Int) - (active.length : Int)).toNat :=
            by rw [List.length_take]; exact Nat.min_le_left _ _
        _ = m - active.length := Int.toNat_sub m active.length
  refine ⟨?_, ?_, ?_, ?_, ?_⟩
  · intro hm
    have hav : ((m : Int) - (active.length : Int)) ≤ 0 := by
      simp only [sub_nonpos]
      exact_mod_cast hm
    unfold check_services_to_start servicesToStart
    simp [hav]
  · intro hm
    have hav : ¬ ((m : Int) - (active.length : Int)) ≤ 0 := by
      simp only [sub_nonpos, not_le]
      exact_mod_cast hm
    unfold servicesToStart
    simp only [hav, if_neg, if_false, reduceIte]
    rw [Int.toNat_sub m active.length]
  · calc (check_services_to_start db active m).2.length
        ≤ (servicesToStart db active m).length := by
          show (((servicesToStart db active m).filter _).map _).length ≤ _
          rw [List.length_map]
          exact List.length_filter_le _ _
      _ ≤ m - active.length := hlen
  · intro i hi
    obtain ⟨s, hs, hid⟩ := List.mem_map.mp hi
    obtain ⟨hsts, hnact⟩ := List.mem_filter.mp hs
    obtain ⟨hsdb, hrun⟩ := mem_servicesToStart hsts
    refine ⟨s, hsdb, hid, hrun, ?_⟩
    rw [← hid]
    simpa using hnact
  · intro s hs hnact
    have hspawn : s.id ∈ (check_services_to_start db active m).2 :=
      List.mem_map_of_mem _
        (List.mem_filter.mpr ⟨hs, by simpa using hnact⟩)
    refine ⟨hspawn, ?_⟩
    have hsdb := (mem_servicesToStart hs).1
    have hfid : ∀ x : Service,
        ((if x.id ∈ (check_services_to_start db active m).2 then
            { x with command := ServiceCommand.NONE,
                     command_issued_at := none }
          else x) : Service).id = x.id := by
      intro x
      by_cases hx : x.id ∈ (check_services_to_start db active m).2 <;>
        simp [hx]
    have h1 : (check_services_to_start db active m).1 =
        db.map (fun x =>
          if x.id ∈ (check_services_to_start db active m).2 then
            { x with command := ServiceCommand.NONE,
                     command_issued_at := none }
          else x) := rfl
    rw [h1, findService_map _ hfid, findService_of_mem_nodup hsdb hnd]
    simp [hspawn]

/-- An `INACTIVE` service row with a pending `START` command. -/
def idleStartService : Service :=
  { id := 5, service_type := .WATCH_DOG, status := .INACTIVE,
    command := .START, command_issued_at := some 1 }

/-- Claim C6 witness: the theorem at a two-row table (one runnable `INACTIVE`
row with `command=START`, one `FAILED` runnable row) with one free slot. -/
theorem c6_witness :
    (([idleStartService, failedService].map Service.id).Nodup) ∧
    ((1 ≤ ([] : List Nat).length →
      check_services_to_start [idleStartService, failedService] [] 1 =
        ([idleStartService, failedService], [])) ∧
    (([] : List Nat).length < 1 →
      servicesToStart [idleStartService, failedService] [] 1 =
        ([idleStartService, failedService].filter runnable).take
          (1 - ([] : List Nat).length)) ∧
    (check_services_to_start [idleStartService, failedService] [] 1).2.length ≤
      1 - ([] : List Nat).length ∧
    (∀ i ∈ (check_services_to_start [idleStartService, failedService] [] 1).2,
      ∃ s ∈ [idleStartService, failedService], s.id = i ∧
        runnable s = true ∧ i ∉ ([] : List Nat)) ∧
    (∀ s ∈ servicesToStart [idleStartService, failedService] [] 1,
      s.id ∉ ([] : List Nat) →
      s.id ∈ (check_services_to_start [idleStartService, failedService] [] 1).2 ∧
      findService
          (check_services_to_start [idleStartService, failedService] [] 1).1
          s.id =
        some { s with command := .NONE, command_issued_at := none })) :=
  ⟨by decide, c6_start_pass [idleStartService, failedService] [] 1 (by decide)⟩

/-! ### C9 — commands on a SHUTTING_DOWN row -/

/-- A `SHUTTING_DOWN` service row carrying a `RESTART` command. -/
def shuttingDownRestart : Service :=
  { id := 3, service_type := .WATCH_DOG, status := .SHUTTING_DOWN,
    command := .RESTART, command_issued_at := some 90 }

/-- Claim C9 (amended): while a row is `SHUTTING_DOWN` the start and stop
passes ignore it (it matches neither query, so the pass leaves it
unchanged and never spawns it) — but the restart monitor's query filters
only on `command=RESTART`, with no status condition, so it *does* act on a
`SHUTTING_DOWN` row: it cancels the in-process task if present and commits
`status=INACTIVE, command=START, command_issued_at=now()`. -/
theorem c9_shutting_down_commands (db : List Service) (active : List Nat)
    (m : Nat) (tNow : Int) (s : Service) (hmem : s ∈ db)
    (hnd : (db.map Service.id).Nodup) (hsd : s.status = .SHUTTING_DOWN) :
    runnable s = false ∧
    stoppable s = false ∧
    s.id ∉ (check_services_to_start db active m).2 ∧
    findService (check_services_to_start db active m).1 s.id = some s ∧
    findService (check_services_to_stop db active).1 s.id = some s ∧
    (s.command = .RESTART →
      findService (monitor_commands_pass db active tNow).1 s.id =
        some { s with status := .INACTIVE, command := .START,
                      command_issued_at := some tNow } ∧
      (s.id ∈ active →
        s.id ∈ (monitor_commands_pass db active tNow).2.2 ∧
        s.id ∉ (monitor_commands_pass db active tNow).2.1)) := by
  have hrun : runnable s = false := by simp [runnable, hsd]
  have hstop : stoppable s = false := by simp [stoppable, hsd]
  have hnospawn : s.id ∉ (check_services_to_start db active m).2 := by
    intro hcontra
    obtain ⟨s', hs', hid⟩ := List.mem_map.mp hcontra
    obtain ⟨hsts, _⟩ := List.mem_filter.mp hs'
    obtain ⟨hs'db, hrun'⟩ := mem_servicesToStart hsts
    have : s' = s := eq_of_mem_mem_nodup hs'db hmem hid hnd
    rw [this, hrun] at hrun'
    cases hrun'
  refine ⟨hrun, hstop, hnospawn, ?_, ?_, ?_⟩
  · have hfid : ∀ x : Service,
        ((if x.id ∈ (check_services_to_start db active m).2 then
            { x with command := ServiceCommand.NONE,
                     command_issued_at := none }
          else x) : Service).id = x.id := by
      intro x
      by_cases hx : x.id ∈ (check_services_to_start db active m).2 <;>
        simp [hx]
    have h1 : (check_services_to_start db active m).1 =
        db.map (fun x =>
          if x.id ∈ (check_services_to_start db active m).2 then
            { x with command := ServiceCommand.NONE,
                     command_issued_at := none }
          else x) := rfl
    rw [h1, findService_map _ hfid, findService_of_mem_nodup hmem hnd]
    simp [hnospawn]
  · have hfid : ∀ x : Service,
        ((if stoppable x then
            if x.id ∈ active then
              { x with command := ServiceCommand.NONE,
                       command_issued_at := none,
                       status := ServiceStatus.SHUTTING_DOWN }
            else
              { x with command := ServiceCommand.NONE,
                       command_issued_at := none,
                       status := ServiceStatus.INACTIVE }
          else x) : Service).id = x.id := by
      intro x
      by_cases hx : stoppable x
      · by_cases hx' : x.id ∈ active <;> simp [hx, hx']
      · simp [hx]
    show findService (db.map _) s.id = _
    rw [findService_map _ hfid, findService_of_mem_nodup hmem hnd]
    simp [hstop]
  · intro hcmd
    have hrid : s.id ∈
        (db.filter (fun x => x.command = ServiceCommand.RESTART)).map
          Service.id :=
      List.mem_map_of_mem _
        (List.mem_filter.mpr ⟨hmem, by simp [hcmd]⟩)
    constructor
    · have hfid : ∀ x : Service,
          ((if x.command = ServiceCommand.RESTART then
              { x with status := ServiceStatus.INACTIVE,
                       command := ServiceCommand.START,
                       command_issued_at := some tNow }
            else x) : Service).id = x.id := by
        intro x
        by_cases hx : x.command = ServiceCommand.RESTART <;> simp [hx]
      show findService (db.map _) s.id = _
      rw [findService_map _ hfid, findService_of_mem_nodup hmem hnd]
      simp [hcmd]
    · intro hact
      constructor
      · exact List.mem_filter.mpr ⟨hrid, by simpa using hact⟩
      · intro hcontra
        have := (List.mem_filter.mp hcontra).2
        simp only [decide_eq_true_eq] at this
        exact this hrid

/-- Claim C9 witness: the amended theorem at a one-row table holding a
`SHUTTING_DOWN` row with `command=RESTART` whose task is active. -/
theorem c9_witness :
    shuttingDownRestart ∈ [shuttingDownRestart] ∧
    (([shuttingDownRestart].map Service.id).Nodup) ∧
    shuttingDownRestart.status = .SHUTTING_DOWN ∧
    (runnable shuttingDownRestart = false ∧
    stoppable shuttingDownRestart = false ∧
    shuttingDownRestart.id ∉
      (check_services_to_start [shuttingDownRestart] [3] 2).2 ∧
    findService (check_services_to_start [shuttingDownRestart] [3] 2).1
      shuttingDownRestart.id = some shuttingDownRestart ∧
    findService (check_services_to_stop [shuttingDownRestart] [3]).1
      shuttingDownRestart.id = some shuttingDownRestart ∧
    (shuttingDownRestart.command = .RESTART →
      findService (monitor_commands_pass [shuttingDownRestart] [3] 99).1
          shuttingDownRestart.id =
        some { shuttingDownRestart with
                status := .INACTIVE, command := .START,
                command_issued_at := some 99 } ∧
      (shuttingDownRestart.id ∈ [3] →
        shuttingDownRestart.id ∈
          (monitor_commands_pass [shuttingDownRestart] [3] 99).2.2 ∧
        shuttingDownRestart.id ∉
          (monitor_commands_pass [shuttingDownRestart] [3] 99).2.1))) :=
  ⟨by decide, by decide, by decide,
   c9_shutting_down_commands [shuttingDownRestart] [3] 2 99
     shuttingDownRestart (by decide) (by decide) (by decide)⟩

/-- Claim C9 counterexample: the restart monitor, run on a table whose only
row is `SHUTTING_DOWN` with `command=RESTART` and an active task, cancels
the task and rewrites the row to `INACTIVE`/`START` — it does act on a
`SHUTTING_DOWN` service, contrary to the claim that every pending command
is ignored until the row reaches `INACTIVE`. -/
theorem c9_counterexample :
    monitor_commands_pass [shuttingDownRestart] [3] 99 =
      ([{ shuttingDownRestart with
           status := .INACTIVE, command := .START,
           command_issued_at := some 99 }], [], [3]) ∧
    ({ shuttingDownRestart with
        status := .INACTIVE, command := .START,
        command_issued_at := some 99 } : Service) ≠ shuttingDownRestart := by
  constructor <;> decide

/-! ### C5 — the poll query and its ordering -/

/-- With no free slot the poll returns no candidates. -/
theorem get_open_jobs_of_le {db : List Job} {active : List Nat} {m : Nat}
    (h : m ≤ active.length) : get_open_jobs db active m = [] := by
  have hav : ((m : Int) - (active.length : Int)) ≤ 0 := by
    simp only [sub_nonpos]
    exact_mod_cast h
  unfold get_open_jobs
  simp [hav]

/-- With a free slot the poll is the sorted-filtered-limited query followed
by the per-candidate re-validation. -/
theorem get_open_jobs_of_pos {db : List Job} {active : List Nat} {m : Nat}
    (h : active.length < m) :
    get_open_jobs db active m =
      ((List.insertionSort jobLE (db.filter (openCandidate active))).take
        (m - active.length)).filter (openCandidate active) := by
  have hav : ¬ ((m : Int) - (active.length : Int)) ≤ 0 := by
    simp only [sub_nonpos, not_le]
    exact_mod_cast h
  unfold get_open_jobs
  simp only [hav, if_neg, if_false, reduceIte]
  rw [Int.toNat_sub m active.length]

/-- The poll result is sorted by `(priority DESC, created_at ASC)`. -/
theorem get_open_jobs_sorted (db : List Job) (active : List Nat) (m : Nat) :
    List.Sorted jobLE (get_open_jobs db active m) := by
  rcases le_or_lt m active.length with h | h
  · rw [get_open_jobs_of_le h]
    exact List.sorted_nil
  · rw [get_open_jobs_of_pos h]
    have hs : List.Sorted jobLE
        (List.insertionSort jobLE (db.filter (openCandidate active))) :=
      List.sorted_insertionSort jobLE _
    exact List.Pairwise.sublist
      ((List.filter_sublist _).trans (List.take_sublist _ _)) hs

/-- Claim C5: each poll returns only `OPEN` jobs whose id is not in the
active set, at most `maxConcurrent − |active|` of them (none when no slot
is free), in `(priority DESC, created_at ASC)` order; consequently within
one poll batch a candidate with strictly higher priority precedes every
candidate with lower priority in the dispatched order. -/
theorem c5_poll_query (db : List Job) (active : List Nat) (m : Nat) :
    (m ≤ active.length → get_open_jobs db active m = []) ∧
    (get_open_jobs db active m).length ≤ m - active.length ∧
    (∀ j ∈ get_open_jobs db active m,
      j ∈ db ∧ j.status = .OPEN ∧ j.id ∉ active) ∧
    List.Sorted jobLE (get_open_jobs db active m) ∧
    (∀ i j : Fin (get_open_jobs db active m).length,
      ((get_open_jobs db active m).get j).priority <
        ((get_open_jobs db active m).get i).priority →
      (i : Nat) < (j : Nat)) := by
  refine ⟨fun h => get_open_jobs_of_le h, ?_, ?_, get_open_jobs_sorted db active m, ?_⟩
  · rcases le_or_lt m active.length with h | h
    · rw [get_open_jobs_of_le h]
      exact Nat.zero_le _
    · rw [get_open_jobs_of_pos h]
      calc (((List.insertionSort jobLE (db.filter (openCandidate active))).take
              (m - active.length)).filter (openCandidate active)).length
          ≤ ((List.insertionSort jobLE (db.filter (openCandidate active))).take
              (m - active.length)).length := List.length_filter_le _ _
        _ ≤ m - active.length := by
            rw [List.length_take]
            exact Nat.min_le_left _ _
  · intro j hj
    rcases le_or_lt m active.length with h | h
    · rw [get_open_jobs_of_le h] at hj
      cases hj
    · rw [get_open_jobs_of_pos h] at hj
      have h1 := (List.mem_filter.mp hj).2
      have h2 : j ∈ (List.insertionSort jobLE
          (db.filter (openCandidate active))).take (m - active.length) :=
        (List.mem_filter.mp hj).1
      have h3 : j ∈ List.insertionSort jobLE (db.filter (openCandidate active)) :=
        List.mem_of_mem_take h2
      have h4 : j ∈ db.filter (openCandidate active) :=
        (List.perm_insertionSort jobLE _).mem_iff.mp h3
      have h5 := (List.mem_filter.mp h4).2
      simp only [openCandidate, Bool.decide_and, Bool.and_eq_true,
        decide_eq_true_eq] at h5
      exact ⟨(List.mem_filter.mp h4).1, h5.1, h5.2⟩
  · intro i j hp
    have hsorted := get_open_jobs_sorted db active m
    rcases lt_trichotomy (i : Nat) (j : Nat) with h | h | h
    · exact h
    · exfalso
      have : i = j := Fin.ext h
      rw [this] at hp
      exact lt_irrefl _ hp
    · exfalso
      have hji : j < i := h
      have := hsorted.rel_get_of_lt hji
      rcases this with hlt | ⟨heq, _⟩
      · exact lt_asymm hp hlt
      · rw [heq] at hp
        exact lt_irrefl _ hp

/-- Three `OPEN` jobs matching spec scenario S3: A(prio 5, created later),
B(prio 5, created earlier), C(prio 10). -/
def jobA : Job :=
  { id := 11, job_type := .FFPROBE, status := .OPEN,
    parameters := some [], priority := 5, created_at := 2 }

/-- See `jobA`. -/
def jobB : Job :=
  { id := 12, job_type := .FFPROBE, status := .OPEN,
    parameters := some [], priority := 5, created_at := 1 }

/-- See `jobA`. -/
def jobC : Job :=
  { id := 13, job_type := .FFPROBE, status := .OPEN,
    parameters := some [], priority := 10, created_at := 3 }

/-- Claim C5 witness: the theorem at the S3 batch; the dispatched order of
the concrete poll is `[C, B, A]`. -/
theorem c5_witness :
    get_open_jobs [jobA, jobB, jobC] [] 5 = [jobC, jobB, jobA] ∧
    ((5 ≤ ([] : List Nat).length →
        get_open_jobs [jobA, jobB, jobC] [] 5 = []) ∧
     (get_open_jobs [jobA, jobB, jobC] [] 5).length ≤
        5 - ([] : List Nat).length ∧
     (∀ j ∈ get_open_jobs [jobA, jobB, jobC] [] 5,
        j ∈ [jobA, jobB, jobC] ∧ j.status = .OPEN ∧
          j.id ∉ ([] : List Nat)) ∧
     List.Sorted jobLE (get_open_jobs [jobA, jobB, jobC] [] 5) ∧
     (∀ i j : Fin (get_open_jobs [jobA, jobB, jobC] [] 5).length,
        ((get_open_jobs [jobA, jobB, jobC] [] 5).get j).priority <
          ((get_open_jobs [jobA, jobB, jobC] [] 5).get i).priority →
        (i : Nat) < (j : Nat))) :=
  ⟨by decide, c5_poll_query [jobA, jobB, jobC] [] 5⟩

end PyMediaServer
